import Mathlib

/-!
Verification of the connection-lifecycle logic of the proton-vpn-desktop-proxy
repository. Each definition below is a shallow embedding of one function of
the TypeScript source (file and function named in its doc comment); times are
modelled in integer milliseconds, JavaScript numbers as exact integers, and
network I/O as explicit outcome parameters.
-/

/-- Embedding of `VPNClientUI.getRetryDelay` (renderer, second variant):
`if (attempt === 0) return 500; return Math.min(Math.pow(2, attempt - 1) * 2000, 12000);` -/
def getRetryDelay (attempt : Nat) : Nat :=
  if attempt = 0 then 500 else min (2 ^ (attempt - 1) * 2000) 12000

/-- Embedding of the bypass-rule construction in `MainProcess.setSystemProxy`
(src/main/main.ts): under kill switch the list is exactly
`['localhost','127.0.0.1']`; otherwise the fixed local ranges followed by the
caller-supplied `config.bypassList`. -/
def proxyBypassRules (killSwitch : Bool) (bypassList : List String) : List String :=
  if killSwitch then
    ["localhost", "127.0.0.1"]
  else
    ["localhost", "127.0.0.1", "127.0.0.0/8", "10.0.0.0/8", "172.16.0.0/12",
     "192.168.0.0/16", "[::1]", "<local>"] ++ bypassList

/-- The mandatory bypass entries named by the spec's bypass invariant. -/
def mandatoryBypass : List String :=
  ["127.0.0.1", "10.0.0.0/8", "172.16.0.0/12", "192.168.0.0/16"]

/-- Outcome of one health probe `fetch(url, ...).then(() => true).catch(() => false)`:
either the request resolved (with some HTTP status, which the code discards)
or the fetch rejected with a network error. -/
inductive ProbeOutcome
  | resolved (status : Nat)
  | fetchError
deriving DecidableEq

/-- The value each probe contributes to `results` in
`MainProcess.checkProxyStatus`: `true` for any resolved response regardless of
its HTTP status, `false` only when the fetch itself rejected. -/
def probeSucceeded : ProbeOutcome → Bool
  | .resolved _ => true
  | .fetchError => false

/-- Embedding of `ProxyErrorType` (src/common/types.ts), restricted to the
members used by the functions verified here. -/
inductive ProxyErrorType
  | AUTH_FAILED
  | NETWORK_ERROR
  | SERVER_ERROR
  | LOGICAL_ERROR
deriving DecidableEq

/-- Embedding of the probe-classification core of `MainProcess.checkProxyStatus`
(src/main/main.ts, lines 296-346): given the three probe outcomes and the
result of the (rate-limited) logical-status check, return the boolean status
and the `ProxyErrorType` recorded via `updateProxyError` (messages dropped).
The preceding `proxyConfig?.enabled` and network-connectivity guards are
outside this core. -/
def checkProxyStatus (outcomes : List ProbeOutcome) (logicalOk : Bool) :
    Bool × Option ProxyErrorType :=
  let results := outcomes.map probeSucceeded
  if results.any (fun r => r) then
    if logicalOk then
      if 2 ≤ (results.filter (fun r => r)).length then (true, none)
      else (false, some .SERVER_ERROR)
    else (false, none)
  else (false, some .SERVER_ERROR)

theorem probe_any_map (l : List ProbeOutcome) :
    (l.map probeSucceeded).any (fun r => r) = l.any probeSucceeded := by
  induction l with
  | nil => rfl
  | cons h t ih => simp [List.any_cons, ih]

theorem probe_count_map (l : List ProbeOutcome) :
    ((l.map probeSucceeded).filter (fun r => r)).length
      = (l.filter probeSucceeded).length := by
  induction l with
  | nil => rfl
  | cons h t ih => cases hh : probeSucceeded h <;> simp [List.filter_cons, hh, ih]

/-- C1 counterexample: the claim asserts the delay for attempt 2 is 6000 ms
(6 s), but `getRetryDelay 2 = min (2^1 * 2000) 12000 = 4000` ms. -/
theorem claim_C1_counterexample : getRetryDelay 2 = 4000 ∧ getRetryDelay 2 ≠ 6000 := by
  decide

/-- C1 (amended): `getRetryDelay` returns 500 ms for attempt 0 and
`min (2000 * 2^(n-1), 12000)` ms for n ≥ 1, so the successive delays for
attempts 0,1,2,3,4 are 500 ms, 2 s, 4 s, 8 s and 12 s, capped at 12 s for
every attempt from 4 on. -/
theorem claim_C1_amended :
    getRetryDelay 0 = 500 ∧ getRetryDelay 1 = 2000 ∧ getRetryDelay 2 = 4000 ∧
    getRetryDelay 3 = 8000 ∧ getRetryDelay 4 = 12000 ∧
    (∀ n, 1 ≤ n → getRetryDelay n = min (2 ^ (n - 1) * 2000) 12000) ∧
    (∀ n, 4 ≤ n → getRetryDelay n = 12000) := by
  refine ⟨by decide, by decide, by decide, by decide, by decide, ?_, ?_⟩
  · intro n hn
    have hne : n ≠ 0 := by omega
    simp [getRetryDelay, hne]
  · intro n hn
    have hne : n ≠ 0 := by omega
    have h8 : 2 ^ 3 ≤ 2 ^ (n - 1) := Nat.pow_le_pow_right (by decide) (by omega)
    have : 12000 ≤ 2 ^ (n - 1) * 2000 := by
      have : 8 * 2000 ≤ 2 ^ (n - 1) * 2000 := Nat.mul_le_mul_right 2000 h8
      omega
    simp [getRetryDelay, hne, Nat.min_eq_right this]

/-- C1 witness: instantiating the capped branch at attempt 5. -/
theorem claim_C1_witness : getRetryDelay 5 = 12000 :=
  claim_C1_amended.2.2.2.2.2.2 5 (by decide)

/-- C2 counterexample: with the kill-switch setting enabled, the applied bypass
list is exactly `['localhost','127.0.0.1']` — it is not a superset of the
mandatory set (it lacks `10.0.0.0/8`) and the caller-supplied entry
`10.0.0.0/8` is dropped rather than unioned in. -/
theorem claim_C2_counterexample :
    ¬ ("10.0.0.0/8" ∈ proxyBypassRules true ["10.0.0.0/8"]) := by
  decide

/-- C2 (amended): when the kill-switch setting is disabled, the bypass list
applied by `setSystemProxy` contains every mandatory entry
(127.0.0.1, 10.0.0.0/8, 172.16.0.0/12, 192.168.0.0/16) and every
caller-supplied entry; when kill switch is enabled the list is exactly
`['localhost','127.0.0.1']`, regardless of the caller's list. -/
theorem claim_C2_amended (bypassList : List String) (x : String) :
    (x ∈ mandatoryBypass → x ∈ proxyBypassRules false bypassList) ∧
    (x ∈ bypassList → x ∈ proxyBypassRules false bypassList) ∧
    proxyBypassRules true bypassList = ["localhost", "127.0.0.1"] := by
  refine ⟨?_, ?_, rfl⟩
  · intro hx
    simp only [mandatoryBypass, List.mem_cons, List.not_mem_nil, or_false] at hx
    rcases hx with h | h | h | h <;> subst h <;> simp [proxyBypassRules]
  · intro hx
    simp [proxyBypassRules, hx]

/-- C2 witness: a mandatory entry and a caller entry both end up in the applied
list when kill switch is off. -/
theorem claim_C2_witness :
    "10.0.0.0/8" ∈ proxyBypassRules false ["example.com"] ∧
    "example.com" ∈ proxyBypassRules false ["example.com"] :=
  ⟨(claim_C2_amended ["example.com"] "10.0.0.0/8").1 (by decide),
   (claim_C2_amended ["example.com"] "example.com").2.1 (by decide)⟩

/-- C3 counterexample: a probe cycle in which one probe resolves with
HTTP 401 and the other two fail is classified `SERVER_ERROR`, not
`AUTH_FAILED`; and a cycle where all three probes resolve with 401 is
classified healthy. `checkProxyStatus` never inspects HTTP statuses and has
no `AUTH_FAILED` outcome at all. -/
theorem claim_C3_counterexample :
    checkProxyStatus [.resolved 401, .fetchError, .fetchError] true
      = (false, some .SERVER_ERROR) ∧
    (some ProxyErrorType.SERVER_ERROR ≠ some ProxyErrorType.AUTH_FAILED) ∧
    checkProxyStatus [.resolved 401, .resolved 401, .resolved 401] true
      = (true, none) := by
  decide

/-- C3 (amended): the health check ignores HTTP statuses entirely (a probe
that resolves with 401/407 counts as a success; `AuthFailed` is never
produced); with the logical check passing, the aggregate result is healthy
iff at least 2 probes resolved, and otherwise a `SERVER_ERROR` is recorded.
In particular [fail, success, success] classifies healthy and
[fail, fail, success] classifies `SERVER_ERROR` (server unreachable). -/
theorem claim_C3_amended (outcomes : List ProbeOutcome) :
    checkProxyStatus outcomes true
      = (if 2 ≤ (outcomes.filter probeSucceeded).length then (true, none)
         else (false, some .SERVER_ERROR)) ∧
    checkProxyStatus [.fetchError, .resolved 200, .resolved 200] true = (true, none) ∧
    checkProxyStatus [.fetchError, .fetchError, .resolved 200] true
      = (false, some .SERVER_ERROR) := by
  refine ⟨?_, by decide, by decide⟩
  by_cases h : outcomes.any probeSucceeded
  · simp only [checkProxyStatus, probe_any_map, h, if_true, probe_count_map]
  · have hall : ∀ o ∈ outcomes, probeSucceeded o = false := by
      simpa [List.any_eq_false] using h
    have hnil : outcomes.filter probeSucceeded = [] := by
      simp [List.filter_eq_nil_iff]
      intro a ha
      simpa using hall a ha
    simp [checkProxyStatus, probe_any_map, h, hnil]

/-- Embedding of the `credentials` field of `CredentialsCacheItem`
(src/common/utils.ts): the short-lived proxy username/password pair with its
lifetime `Expire` in seconds. -/
structure CachedProxyCreds where
  Username : String
  Password : String
  Expire : Int
deriving DecidableEq

/-- Embedding of `CredentialsCacheItem` (src/common/utils.ts): `time` is the
absolute expiry timestamp in ms computed at caching time. -/
structure CredentialsCacheItem where
  time : Int
  credentials : CachedProxyCreds
deriving DecidableEq

/-- The module-level mutable state of the credential cache in
src/common/utils.ts: `cachedCredentials` and `lastCredentialCheck`. -/
structure CredStore where
  cachedCredentials : Option CredentialsCacheItem
  lastCredentialCheck : Int
deriving DecidableEq

/-- `CREDENTIAL_CHECK_INTERVAL = 1000` (ms) from src/common/utils.ts. -/
def CREDENTIAL_CHECK_INTERVAL : Int := 1000

/-- Embedding of `cacheCredentials` (src/common/utils.ts): stores the pair
with expiry timestamp `now + expiresIn * 1000`. -/
def cacheCredentials (s : CredStore) (username password : String)
    (expiresIn now : Int) : CredStore :=
  ⟨some ⟨now + expiresIn * 1000, ⟨username, password, expiresIn⟩⟩, s.lastCredentialCheck⟩

/-- Embedding of `getCachedCredentials` (src/common/utils.ts, second copy):
returns null when nothing is cached or `now >= time`; does not mutate. -/
def getCachedCredentials (s : CredStore) (now : Int) : Option CredentialsCacheItem :=
  match s.cachedCredentials with
  | none => none
  | some c => if c.time ≤ now then none else some c

/-- Embedding of `CredentialsCheckResult` (src/common/utils.ts). -/
structure CredentialsCheckResult where
  valid : Bool
  expired : Bool
  needsRefresh : Bool
deriving DecidableEq

/-- Embedding of `checkCredentials` (src/common/utils.ts, lines 265-292):
rate-limits to one real check per `CREDENTIAL_CHECK_INTERVAL`, answering
`{valid: true, expired: false, needsRefresh: false}` inside the window;
otherwise records `lastCredentialCheck := now` and computes `needsRefresh`
from the 10% margin `Expire * 1000 * 0.1 = Expire * 100` ms. -/
def checkCredentials (s : CredStore) (now : Int) : CredentialsCheckResult × CredStore :=
  if now - s.lastCredentialCheck < CREDENTIAL_CHECK_INTERVAL then
    ({ valid := true, expired := false, needsRefresh := false }, s)
  else
    let s1 : CredStore := { s with lastCredentialCheck := now }
    match getCachedCredentials s1 now with
    | none => ({ valid := false, expired := true, needsRefresh := true }, s1)
    | some cached =>
      let timeUntilExpiry := cached.time - now
      if timeUntilExpiry ≤ 0 then
        ({ valid := false, expired := true, needsRefresh := true }, s1)
      else
        let refreshMargin := cached.credentials.Expire * 100
        ({ valid := true, expired := false,
           needsRefresh := decide (timeUntilExpiry ≤ refreshMargin) }, s1)

/-- Embedding of `isCredentialRefreshNeeded` (src/common/utils.ts):
`needsRefresh || expired` of a fresh `checkCredentials` call. -/
def isCredentialRefreshNeeded (s : CredStore) (now : Int) : Bool × CredStore :=
  let r := checkCredentials s now
  (r.1.needsRefresh || r.1.expired, r.2)

/-- Embedding of `getValidCredentials` (src/common/utils.ts): null unless the
check reports valid and not expired, then re-reads the cache. -/
def getValidCredentials (s : CredStore) (now : Int) :
    Option CredentialsCacheItem × CredStore :=
  let r := checkCredentials s now
  if !r.1.valid || r.1.expired then (none, r.2)
  else (getCachedCredentials r.2 now, r.2)

/-- C4 counterexample: cache credentials with lifetime L = 10 s at t = 0, run a
real check at t = 9000 ms (which records `lastCredentialCheck = 9000`), then
ask again at t = 9500 ms. Elapsed time 9500 ms ≥ 0.9·L = 9000 ms, so the claim
requires the needs-refresh check to be true, but the 1-second rate limiter
answers `needsRefresh = false`. -/
theorem claim_C4_counterexample :
    (900 * 10 ≤ (9500 : Int)) ∧
    (isCredentialRefreshNeeded
        (checkCredentials (cacheCredentials ⟨none, 0⟩ "u" "p" 10 0) 9000).2 9500).1
      = false := by
  constructor
  · decide
  · rfl

/-- C4 (amended): for credentials cached at `t0` with lifetime `L` seconds,
queried at elapsed time `t` ms, provided the rate-limit fast path is not taken
(at least 1000 ms since the previous recorded check), `isCredentialRefreshNeeded`
answers false iff `t < 0.9·L` and true iff `t ≥ 0.9·L`; and `getValidCredentials`
returns none for every `t ≥ L` (this part holds even on the rate-limited path). -/
theorem claim_C4_amended (u p : String) (L t t0 last : Int)
    (hL : 0 < L) (ht : 0 ≤ t) :
    (1000 ≤ (t0 + t) - last →
      (isCredentialRefreshNeeded (cacheCredentials ⟨none, last⟩ u p L t0) (t0 + t)).1
        = decide (900 * L ≤ t)) ∧
    (1000 * L ≤ t →
      (getValidCredentials (cacheCredentials ⟨none, last⟩ u p L t0) (t0 + t)).1 = none) := by
  constructor
  · intro hrate
    have hfast : ¬ (t0 + t - last < (1000 : Int)) := by omega
    by_cases hexp : t0 + L * 1000 ≤ t0 + t
    · have h9 : 900 * L ≤ t := by nlinarith
      simp [isCredentialRefreshNeeded, checkCredentials, CREDENTIAL_CHECK_INTERVAL,
        cacheCredentials, getCachedCredentials, hfast, hexp, h9]
    · have hpos : ¬ (t0 + L * 1000 - (t0 + t) ≤ 0) := by omega
      simp only [isCredentialRefreshNeeded, checkCredentials, CREDENTIAL_CHECK_INTERVAL,
        cacheCredentials, getCachedCredentials, hfast, if_false, hexp, hpos, if_true,
        Bool.or_false]
      rw [decide_eq_decide]
      omega
  · intro hexp
    have hdead : t0 + L * 1000 ≤ t0 + t := by omega
    by_cases hfast : t0 + t - last < (1000 : Int)
    · simp [getValidCredentials, checkCredentials, CREDENTIAL_CHECK_INTERVAL,
        cacheCredentials, getCachedCredentials, hfast, hdead]
    · simp [getValidCredentials, checkCredentials, CREDENTIAL_CHECK_INTERVAL,
        cacheCredentials, getCachedCredentials, hfast, hdead]

/-- C4 witness: lifetime 3600 s, elapsed 3300 s (past the 90% threshold of
3240 s), no rate limiting: the needs-refresh check answers true. -/
theorem claim_C4_witness :
    (isCredentialRefreshNeeded
        (cacheCredentials ⟨none, -1000000⟩ "u" "p" 3600 0) 3300000).1
      = decide ((900 : Int) * 3600 ≤ 3300000) :=
  (claim_C4_amended "u" "p" 3600 3300000 0 (-1000000) (by decide) (by decide)).1 (by decide)

/-- C10 counterexample: starting from the initial store (no cache,
`lastCredentialCheck = 0`), run checks at t = 1500 ms (real check, records
1500), t = 2400 ms (rate-limited) and t = 2600 ms. The calls at 2400 and 2600
are only 200 ms apart, yet the second of them performs a real check and
returns `{valid: false, expired: true, needsRefresh: true}`, not the
rate-limited `{valid: true, expired: false, needsRefresh: false}`. -/
theorem claim_C10_counterexample :
    ((2600 : Int) - 2400 < 1000) ∧
    (checkCredentials (checkCredentials (checkCredentials ⟨none, 0⟩ 1500).2 2400).2 2600).1
        = { valid := false, expired := true, needsRefresh := true } ∧
    ({ valid := false, expired := true, needsRefresh := true } : CredentialsCheckResult)
        ≠ { valid := true, expired := false, needsRefresh := false } := by
  refine ⟨by decide, rfl, by decide⟩

/-- C10 (amended): any `checkCredentials` call made less than 1000 ms after
the most recent real (non-rate-limited) check returns
`{valid: true, expired: false, needsRefresh: false}` without touching the
state, regardless of whether any credentials are cached or expired; hence
`isCredentialRefreshNeeded` can report false within 1 second of a prior check
even when no valid credentials exist. -/
theorem claim_C10_amended (s : CredStore) (now : Int)
    (h : now - s.lastCredentialCheck < 1000) :
    checkCredentials s now
        = ({ valid := true, expired := false, needsRefresh := false }, s) ∧
    (isCredentialRefreshNeeded s now).1 = false := by
  have hfast : now - s.lastCredentialCheck < CREDENTIAL_CHECK_INTERVAL := h
  constructor
  · simp [checkCredentials, hfast]
  · simp [isCredentialRefreshNeeded, checkCredentials, hfast]

/-- C10 witness: the empty store checked 500 ms after a recorded check. -/
theorem claim_C10_witness :
    checkCredentials ⟨none, 0⟩ 500
        = ({ valid := true, expired := false, needsRefresh := false }, (⟨none, 0⟩ : CredStore)) ∧
    (isCredentialRefreshNeeded ⟨none, 0⟩ 500).1 = false :=
  claim_C10_amended ⟨none, 0⟩ 500 (by decide)

/-- Embedding of `AuthConfig` (src/common/types.ts): the OAuth session pair
with its absolute expiry timestamp. -/
structure AuthConfig where
  accessToken : String
  refreshToken : String
  expiresAt : Int
deriving DecidableEq

/-- The possible outcomes of the `fetch` to the token-refresh endpoint in
`refreshAuthToken` (renderer utils variant, lines 884-928): the request threw
(network error or malformed JSON body), the response was not ok, or it parsed
to `{Code, AccessToken, RefreshToken, ExpiresIn}`. -/
inductive RefreshResponse
  | netError
  | httpError
  | apiResult (Code : Int) (AccessToken RefreshToken : String) (ExpiresIn : Int)
deriving DecidableEq

/-- A `RefreshResponse` the source treats as a failure: thrown error, non-ok
HTTP response, or an API code other than 1000. -/
def refreshFailed : RefreshResponse → Prop
  | .netError => True
  | .httpError => True
  | .apiResult code _ _ _ => code ≠ 1000

/-- Embedding of `refreshAuthToken` (renderer utils variant, lines 884-928):
returns the new stored AuthSession and the boolean result. Missing refresh
token returns false without touching the store; every failure response clears
the store via `clearAuthData`; a `Code = 1000` response replaces the session
wholesale via `saveAuthData`. -/
def refreshAuthToken (stored : Option AuthConfig) (resp : RefreshResponse)
    (now : Int) : Option AuthConfig × Bool :=
  match stored with
  | none => (none, false)
  | some authData =>
    if authData.refreshToken = "" then (some authData, false)
    else
      match resp with
      | .netError => (none, false)
      | .httpError => (none, false)
      | .apiResult code tok rtok expIn =>
        if code = 1000 then
          (some ⟨tok, rtok, now + expIn * 1000⟩, true)
        else (none, false)

/-- C6: whenever `refreshAuthToken` fails — the provider rejects the refresh
token (non-ok response or `Code ≠ 1000`), the response is malformed, or a
network error occurs (both surfacing as the catch path) — it clears the
stored AuthSession entirely and returns false; on success it replaces the
stored session wholesale (every field from the response) with no partial
update. -/
theorem claim_C6 (a : AuthConfig) (resp : RefreshResponse) (now : Int)
    (hrt : a.refreshToken ≠ "") :
    (refreshFailed resp → refreshAuthToken (some a) resp now = (none, false)) ∧
    (∀ code tok rtok expIn, resp = .apiResult code tok rtok expIn → code = 1000 →
      refreshAuthToken (some a) resp now = (some ⟨tok, rtok, now + expIn * 1000⟩, true)) := by
  constructor
  · intro hfail
    cases resp with
    | netError => simp [refreshAuthToken, hrt]
    | httpError => simp [refreshAuthToken, hrt]
    | apiResult code tok rtok expIn =>
      have : code ≠ 1000 := hfail
      simp [refreshAuthToken, hrt, this]
  · intro code tok rtok expIn hresp hcode
    subst hresp
    simp [refreshAuthToken, hrt, hcode]

/-- C6 witness: a rejected refresh (HTTP error) clears the session and
returns false for a concrete stored session. -/
theorem claim_C6_witness :
    refreshAuthToken (some ⟨"acc", "ref", 99⟩) .httpError 5 = (none, false) :=
  (claim_C6 ⟨"acc", "ref", 99⟩ .httpError 5 (by decide)).1 trivial

/-- Embedding of `ProxyError` (src/common/types.ts). -/
structure ProxyError where
  type : ProxyErrorType
  message : String
  retryable : Bool
deriving DecidableEq

/-- Embedding of `ProxyConfig` (src/common/types.ts), with `retryCount`
as a plain number where 0 stands for the absent/zero (both falsy) value. -/
structure ProxyConfig where
  enabled : Bool
  host : String
  port : Int
  protocol : String
  username : Option String
  password : Option String
  serverId : Option String
  lastError : Option ProxyError
  retryCount : Nat
  lastCredentialRefresh : Option Int
deriving DecidableEq

/-- Embedding of `saveProxyConfig` (src/common/utils.ts, lines 174-192):
refreshes `lastCredentialRefresh` when the credentials changed, then copies a
truthy `lastError` and a truthy (non-zero) `retryCount` from the previously
stored config over the argument before storing it. Returns the stored value. -/
def saveProxyConfig (currentConfig : Option ProxyConfig) (config : ProxyConfig)
    (now : Int) : ProxyConfig :=
  let config1 :=
    match currentConfig with
    | none => { config with lastCredentialRefresh := some now }
    | some c =>
      if c.username ≠ config.username ∨ c.password ≠ config.password then
        { config with lastCredentialRefresh := some now }
      else config
  let config2 :=
    match currentConfig with
    | some c =>
      match c.lastError with
      | some e => { config1 with lastError := some e }
      | none => config1
    | none => config1
  match currentConfig with
  | some c => if c.retryCount ≠ 0 then { config2 with retryCount := c.retryCount } else config2
  | none => config2

/-- C9: if a previously stored proxy config exists whose `lastError` is set
(respectively whose `retryCount` is non-zero), the result stored by
`saveProxyConfig` keeps the previous `lastError` (respectively `retryCount`)
regardless of the values in the argument — a successful new connection
written through `saveProxyConfig` does not clear prior error state. -/
theorem claim_C9 (c config : ProxyConfig) (now : Int) :
    (c.lastError.isSome = true →
      (saveProxyConfig (some c) config now).lastError = c.lastError) ∧
    (c.retryCount ≠ 0 →
      (saveProxyConfig (some c) config now).retryCount = c.retryCount) := by
  constructor
  · intro herr
    rcases he : c.lastError with _ | e
    · rw [he] at herr; simp at herr
    · by_cases hrc : c.retryCount ≠ 0 <;>
        simp [saveProxyConfig, he, hrc]
  · intro hrc
    rcases he : c.lastError with _ | e <;>
      simp [saveProxyConfig, he, hrc]

/-- C9 witness: a stored config carrying an error and retry count 3 keeps
both when a fresh successful config is saved over it. -/
theorem claim_C9_witness :
    (saveProxyConfig
        (some { enabled := true, host := "h", port := 8080, protocol := "http",
                username := some "u", password := some "p", serverId := none,
                lastError := some ⟨.SERVER_ERROR, "down", true⟩, retryCount := 3,
                lastCredentialRefresh := none })
        { enabled := true, host := "h2", port := 9090, protocol := "http",
          username := some "u2", password := some "p2", serverId := none,
          lastError := none, retryCount := 0, lastCredentialRefresh := none }
        777).lastError = some ⟨.SERVER_ERROR, "down", true⟩ ∧
    (saveProxyConfig
        (some { enabled := true, host := "h", port := 8080, protocol := "http",
                username := some "u", password := some "p", serverId := none,
                lastError := some ⟨.SERVER_ERROR, "down", true⟩, retryCount := 3,
                lastCredentialRefresh := none })
        { enabled := true, host := "h2", port := 9090, protocol := "http",
          username := some "u2", password := some "p2", serverId := none,
          lastError := none, retryCount := 0, lastCredentialRefresh := none }
        777).retryCount = 3 :=
  ⟨(claim_C9 _ _ 777).1 (by decide), (claim_C9 _ _ 777).2 (by decide)⟩

/-- `MAX_RETRY_ATTEMPTS = 4` (renderer, second variant of `VPNClientUI`). -/
def MAX_RETRY_ATTEMPTS : Nat := 4

/-- Embedding of the `retryConnection` failure chain (renderer, second
variant, lines 1243-1297). Each list element is the outcome of the scheduled
reconnect attempt at the current `retryCount` (true = `PROXY.SET` succeeded).
On failure the catch block checks `retryCount >= MAX_RETRY_ATTEMPTS` and
either calls `handleFatalError` (here: `some false`, forced disconnect) or
recurses with `retryCount + 1`. Returns how many attempts were executed and
how the chain ended (`some true` = connection restored, `some false` = fatal
disconnect, `none` = outcome list exhausted). -/
def retryConnection : Nat → List Bool → Nat × Option Bool
  | _, [] => (0, none)
  | retryCount, outcome :: rest =>
    if outcome then (1, some true)
    else if MAX_RETRY_ATTEMPTS ≤ retryCount then (1, some false)
    else
      let r := retryConnection (retryCount + 1) rest
      (r.1 + 1, r.2)

/-- C5 counterexample: a chain started at retry count 0 (as both
`handleProxyError` with `retryAttempts = 0` and the SERVER_ERROR event path
do) in which every attempt fails executes 5 reconnect attempts — retry counts
0 through 4 — before `handleFatalError` forces disconnect. A 5th attempt is
made, contradicting the claimed budget of exactly 4. -/
theorem claim_C5_counterexample :
    retryConnection 0 [false, false, false, false, false] = (5, some false) ∧ (5 ≠ 4) := by
  decide

/-- C5 (amended): under a run of 5 or more consecutive failed reconnect
attempts, the retry chain started at count 0 performs exactly
`MAX_RETRY_ATTEMPTS + 1 = 5` reconnect attempts (retry counts 0..4) and then
forces disconnect via `handleFatalError`; a 6th attempt is never made,
whatever outcomes would follow. -/
theorem claim_C5_amended (rest : List Bool) :
    retryConnection 0 (false :: false :: false :: false :: false :: rest)
      = (MAX_RETRY_ATTEMPTS + 1, some false) := by
  simp [retryConnection, MAX_RETRY_ATTEMPTS]

/-- `maxCredentialFailures = 10` (renderer, second variant of `VPNClientUI`). -/
def maxCredentialFailures : Nat := 10

/-- How one `handleProxyError` call on the 401 path ends (renderer, second
variant, lines 1486-1522). -/
inductive HandleOutcome
  | ceilingDisconnect
  | statusDisconnect
  | retried
  | authDisconnect
deriving DecidableEq

/-- Result of one `handleProxyError` call restricted to errors whose message
contains `401`/`unauthorized`: the new `credentialFailures` counter, whether
`refreshAuthToken` was invoked, and how the call ended. -/
structure Handle401Result where
  credentialFailures : Nat
  refreshAttempted : Bool
  outcome : HandleOutcome
deriving DecidableEq

/-- Embedding of `handleProxyError` (renderer, second variant, lines
1486-1522) for an error classified 401/unauthorized: first the
credential-failure ceiling guard (`credentialFailures >= maxCredentialFailures`
forces disconnect before any recovery), then the proxy-status guard, then the
401 branch which increments the counter and attempts one token refresh
(retrying the connection on success, disconnecting on failure). -/
def handleProxyError401 (credentialFailures : Nat)
    (proxyStatus hasAuthData refreshOk : Bool) : Handle401Result :=
  if maxCredentialFailures ≤ credentialFailures then
    ⟨credentialFailures, false, .ceilingDisconnect⟩
  else if proxyStatus = false then
    ⟨credentialFailures, false, .statusDisconnect⟩
  else
    let failures1 := credentialFailures + 1
    if hasAuthData then
      if refreshOk then ⟨failures1, true, .retried⟩
      else ⟨failures1, true, .authDisconnect⟩
    else ⟨failures1, false, .authDisconnect⟩

/-- Iterates `handleProxyError401` over `n` consecutive AuthFailed events in
the sustained-failure scenario (proxy reachable, auth data present, each token
refresh succeeding but the connection failing again with 401), returning the
final `credentialFailures` value and the total number of token-refresh
attempts. -/
def runAuthFailures : Nat → Nat → Nat × Nat
  | 0, failures => (failures, 0)
  | n + 1, failures =>
    let r := handleProxyError401 failures true true true
    let rec1 := runAuthFailures n r.credentialFailures
    (rec1.1, rec1.2 + (if r.refreshAttempted then 1 else 0))

/-- C7: over 11 consecutive credential-fetch failures classified AuthFailed,
starting from a zero failure counter, exactly 10 token refreshes are
attempted and the counter ends at the ceiling of 10; the 11th event hits the
ceiling guard and forces disconnect without an 11th refresh; and in any state
with the counter at or above the ceiling, `handleProxyError401` forces
disconnect without entering the recovery path, whatever the proxy status,
auth data or refresh outcome. -/
theorem claim_C7 :
    runAuthFailures 11 0 = (10, 10) ∧
    handleProxyError401 10 true true true = ⟨10, false, .ceilingDisconnect⟩ ∧
    (∀ failures proxyStatus hasAuthData refreshOk, maxCredentialFailures ≤ failures →
      handleProxyError401 failures proxyStatus hasAuthData refreshOk
        = ⟨failures, false, .ceilingDisconnect⟩) := by
  refine ⟨by decide, by decide, ?_⟩
  intro failures proxyStatus hasAuthData refreshOk hceil
  simp [handleProxyError401, hceil]

/-- C7 witness: the ceiling guard instantiated at the counter value 10. -/
theorem claim_C7_witness :
    handleProxyError401 10 true true false = ⟨10, false, .ceilingDisconnect⟩ :=
  claim_C7.2.2 10 true true false (by decide)

/-- The three renderer timer fields (`retryTimeout`, `credentialRefreshTimer`,
`connectionTimeout`), true when the timer handle is non-null. -/
structure Timers where
  retryTimeout : Bool
  credentialRefreshTimer : Bool
  connectionTimeout : Bool
deriving DecidableEq

/-- Embedding of the renderer `ConnectionState` enum (second variant). -/
inductive ConnectionState
  | DISCONNECTED
  | CONNECTING
  | CONNECTED
  | ERROR
deriving DecidableEq

/-- The renderer-side state touched by `disconnect` (second variant,
lines 1649-1669). -/
structure RendererState where
  timers : Timers
  connectionState : ConnectionState
  isConnected : Bool
deriving DecidableEq

/-- The main-process state touched by `clearSystemProxy` (src/main/main.ts,
lines 580-591): the OS-level proxy rule string, the persisted proxy config,
and whether the monitoring interval is running. -/
structure MainState where
  osProxyRules : Option String
  proxyConfig : Option ProxyConfig
  monitoring : Bool
deriving DecidableEq

/-- Embedding of `clearTimers` (renderer, second variant): clears all three
timer handles. -/
def clearTimers (u : RendererState) : RendererState :=
  { u with timers := ⟨false, false, false⟩ }

/-- Embedding of `MainProcess.clearSystemProxy` (src/main/main.ts, lines
580-591): `session.defaultSession.setProxy({})` (modelled as the OS call
succeeding), `clearProxyConfig()`, `stopProxyMonitoring()`, returns true. -/
def clearSystemProxy (m : MainState) : MainState × Bool :=
  (⟨none, none, false⟩, true)

/-- Embedding of `VPNClientUI.disconnect` (renderer, second variant, lines
1649-1669): clear all timers, set `connectionState := DISCONNECTED`, invoke
`PROXY.CLEAR` (`clearSystemProxy`), and on success set `isConnected := false`
and report success; on failure only an error notification is shown. Returns
the new renderer and main state and whether the call reported success. -/
def disconnect (u : RendererState) (m : MainState) :
    (RendererState × MainState) × Bool :=
  let u1 := clearTimers u
  let u2 := { u1 with connectionState := ConnectionState.DISCONNECTED }
  let r := clearSystemProxy m
  if r.2 then (({ u2 with isConnected := false }, r.1), true)
  else ((u2, r.1), false)

/-- C8: `disconnect` is idempotent — calling it twice in a row yields the same
end state as calling it once (state `DISCONNECTED`, OS proxy rules cleared,
persisted proxy config removed, all three timers cancelled), and the second
call reports success. -/
theorem claim_C8 (u : RendererState) (m : MainState) :
    (disconnect (disconnect u m).1.1 (disconnect u m).1.2).1 = (disconnect u m).1 ∧
    (disconnect (disconnect u m).1.1 (disconnect u m).1.2).2 = true ∧
    (disconnect u m).1.1.connectionState = ConnectionState.DISCONNECTED ∧
    (disconnect u m).1.1.timers = ⟨false, false, false⟩ ∧
    (disconnect u m).1.1.isConnected = false ∧
    (disconnect u m).1.2.osProxyRules = none ∧
    (disconnect u m).1.2.proxyConfig = none ∧
    (disconnect u m).1.2.monitoring = false := by
  refine ⟨rfl, rfl, rfl, rfl, rfl, rfl, rfl, rfl⟩
